import Mathlib

/-!
Verification of `source/arm11/oaf_video.c` from open_agb_firm.

The file shallowly embeds the video pipeline code: the gamma lookup-table
generator `adjustGammaTableForGba`, the capture configurator
`setupFrameCapture`, the frame pipeline task `gbaGfxHandler`, the screenshot
serializer `dumpFrameTex` and the border-loading part of `OAF_videoInit`.
Floating-point arithmetic is modelled over the reals (`powf` as `Real.rpow`,
`lroundf` as round-half-away-from-zero); machine integers are `Nat`/`Int`
with explicit truncation where it matters; hardware effects are modelled as
explicit action traces and result values.

Constants and helper semantics that live in headers outside this translation
unit (`hid.h`, `lgycap.h`, `util.h`, `fsutil.h`, `bitmap.h`) are modelled
from the design document and marked as such in their doc comments.
-/

namespace OafVideo

/-- Modelled from the spec: `clamp_s32(val, min, max)` from `util.h` (not in
the translation unit) — "clamp to [0,255]": returns `min` when below, `max`
when above, `val` otherwise. -/
def clamp_s32 (v lo hi : ℤ) : ℤ :=
  if v < lo then lo else if v > hi then hi else v

/-- C `lroundf`: round to nearest integer, halfway cases away from zero.
For nonnegative arguments this is `round` (round half up); negative
arguments reflect through zero. -/
noncomputable def lroundf (x : ℝ) : ℤ :=
  if x < 0 then -round (-x) else round x

/-- The per-index computation of `adjustGammaTableForGba` (oaf_video.c
lines 42-54): the loop body producing entry `i` of the gamma table, with the
hoisted loop-invariant locals `lcdGamma = 1/g_oafConfig.lcdGamma`,
`brightness = g_oafConfig.brightness / contrast` and
`contrastInTargetGamma = powf(contrast, targetGamma)`. -/
noncomputable def gbaGammaEntry (targetGamma lcdGammaCfg contrast brightnessCfg : ℝ)
    (i : ℕ) : ℤ :=
  let lcdGamma : ℝ := 1 / lcdGammaCfg
  let brightness : ℝ := brightnessCfg / contrast
  let contrastInTargetGamma : ℝ := contrast ^ targetGamma
  let adjusted : ℝ := ((i : ℝ) / 255 + brightness) ^ targetGamma
  clamp_s32 (lroundf ((contrastInTargetGamma * adjusted) ^ lcdGamma * 255)) 0 255

/-- Packing `res<<16 | res<<8 | res` as a 32-bit word (oaf_video.c line 57): the
clamped result replicated into the red, green and blue bytes. -/
def packRGB (res : ℤ) : ℕ :=
  (res.toNat <<< 16 ||| res.toNat <<< 8 ||| res.toNat) % 2 ^ 32

/-- Model of `adjustGammaTableForGba` (oaf_video.c lines 39-59): the ordered sequence
of 256 words written to the write-only, index-implicit hardware lookup
register `color_lut_data`. Each loop iteration appends one write, so list
position `i` is the word written at cursor position `i`, in increasing
index order. -/
noncomputable def adjustGammaTableForGba
    (targetGamma lcdGammaCfg contrast brightnessCfg : ℝ) : List ℕ :=
  List.ofFn (fun i : Fin 256 =>
    packRGB (gbaGammaEntry targetGamma lcdGammaCfg contrast brightnessCfg i.val))

/-- The spec's formula for gamma entry `i`, written exactly as §4.1 states
it: `adjusted = pow(i/255 + brightness/contrast, targetGamma)`;
`value = round(pow(pow(contrast, targetGamma) * adjusted, 1/lcdGamma) * 255)`;
clamp to [0,255]. -/
noncomputable def specGammaValue (targetGamma lcdGamma contrast brightness : ℝ)
    (i : ℕ) : ℤ :=
  clamp_s32
    (lroundf ((contrast ^ targetGamma *
      (((i : ℝ) / 255 + brightness / contrast) ^ targetGamma)) ^ (1 / lcdGamma) * 255))
    0 255

/-- Modelled from the spec: the `Result` type of the storage collaborator
(§6, `fsutil.h`/`oaf_error_codes.h` are not in the translation unit) —
`RES_OK`, the distinguished non-fatal `RES_FR_NO_FILE`, and other error
codes. -/
inductive Result where
  | ok : Result
  | frNoFile : Result
  | err : ℕ → Result
deriving DecidableEq, BEq

/-- Modelled from the spec: the SELECT button bit of the HID bitmask
(`hid.h` is not in the translation unit); a single distinct bit. -/
def KEY_SELECT : ℕ := 4

/-- Modelled from the spec: the Y button bit of the HID bitmask; a single
distinct bit, different from the SELECT bit. -/
def KEY_Y : ℕ := 2048

/-- Modelled from the spec: `lgycap.h` control-word bits (not in the
translation unit). Swizzle flag of the capture control word. -/
def LGYCAP_SWIZZLE : ℕ := 32

/-- Modelled from the spec: rotation field value "no rotation". -/
def LGYCAP_ROT_NONE : ℕ := 0

/-- Modelled from the spec: pixel-format field value A1BGR5. -/
def LGYCAP_FMT_A1BGR5 : ℕ := 3

/-- Modelled from the spec: horizontal-scaling enable bit (bit 14). -/
def LGYCAP_HSCALE_EN : ℕ := 16384

/-- Modelled from the spec: vertical-scaling enable bit (bit 15). -/
def LGYCAP_VSCALE_EN : ℕ := 32768

/-- Whether both scaling-enable bits are set in a capture control word. -/
def lgycapScalingEnabled (cnt : ℕ) : Bool :=
  cnt.testBit 14 && cnt.testBit 15

/-- The built-in scaler coefficient matrix (oaf_video.c lines 187-204):
`static s16 matrix[12 * 8]`, vertical taps first (6 rows of 8 phases), then
horizontal taps. -/
def defaultScalerMatrix : List ℤ :=
  [ 0, 0, 0, 0, 0, 0, 0, 0,
    0, 0, 0, 0, 0, 0, 0, 0,
    0, 0x24B0, 0x4000, 0, 0x24B0, 0x4000, 0, 0,
    0x4000, 0x2000, 0, 0x4000, 0x2000, 0, 0, 0,
    0, -0x4B0, 0, 0, -0x4B0, 0, 0, 0,
    0, 0, 0, 0, 0, 0, 0, 0,
    0, 0, 0, 0, 0, 0, 0, 0,
    0, 0, 0, 0, 0, 0, 0, 0,
    0, 0, 0x24B0, 0, 0, 0x24B0, 0, 0,
    0x4000, 0x4000, 0x2000, 0x4000, 0x4000, 0x2000, 0, 0,
    0, 0, -0x4B0, 0, 0, -0x4B0, 0, 0,
    0, 0, 0, 0, 0, 0, 0, 0 ]

/-- The `LgyCapCfg` struct filled in by `setupFrameCapture` (oaf_video.c
lines 212-222). The two matrix fields each hold 48 signed 16-bit taps
(6 taps by 8 phases), copied by `memcpy` from the first and second half of
the 96-entry matrix buffer. -/
structure LgyCapCfg where
  cnt : ℕ
  w : ℕ
  h : ℕ
  irq : ℕ
  vLen : ℕ
  vPatt : ℕ
  vMatrix : List ℤ
  hLen : ℕ
  hPatt : ℕ
  hMatrix : List ℤ
deriving DecidableEq

/-- Modelled from the spec: the outcome of `fsQuickRead` into a buffer
(§6 storage contract): on success the buffer holds the file's data; on
`RES_FR_NO_FILE` or any other error the buffer is left unchanged. -/
inductive FsRead where
  | ok : List ℤ → FsRead
  | noFile : FsRead
  | err : ℕ → FsRead
deriving DecidableEq

/-- The `Result` value `fsQuickRead` reports for a given read outcome. -/
def FsRead.toResult : FsRead → Result
  | .ok _ => Result.ok
  | .noFile => Result.frNoFile
  | .err c => Result.err c

/-- Model of `setupFrameCapture` (oaf_video.c lines 184-225), modelled as a pure
function of the scaler mode and the outcome of reading the override file
"gba_scaler_matrix.bin". Returns the configuration handed to
`LGYCAP_init` together with the flag telling whether the load-failure
message was printed (`res != RES_OK && res != RES_FR_NO_FILE`). -/
def setupFrameCapture (scaler : ℕ) (matrixRead : FsRead) : LgyCapCfg × Bool :=
  let is240x160 : Bool := scaler < 2
  let matrix : List ℤ :=
    match matrixRead with
    | .ok data => data
    | _ => defaultScalerMatrix
  let res : Result := matrixRead.toResult
  let logged : Bool := !(res == Result.ok) && !(res == Result.frNoFile)
  let cfg : LgyCapCfg :=
    { cnt := LGYCAP_SWIZZLE ||| LGYCAP_ROT_NONE ||| LGYCAP_FMT_A1BGR5 |||
        (if is240x160 then 0 else LGYCAP_HSCALE_EN ||| LGYCAP_VSCALE_EN)
      w := if is240x160 then 240 else 360
      h := if is240x160 then 160 else 240
      irq := 0
      vLen := 6
      vPatt := 0b00011011
      vMatrix := matrix.take 48
      hLen := 6
      hPatt := 0b00011011
      hMatrix := (matrix.drop 48).take 48 }
  (cfg, logged)

/-- Modelled from the spec: `Bitmapfileheader` (`bitmap.h` is not in the
translation unit) — the fixed 14-byte generic raster header. -/
structure Bitmapfileheader where
  magic : ℕ
  fileSize : ℕ
  reserved : ℕ
  reserved2 : ℕ
  pixelOffset : ℕ
deriving DecidableEq

/-- Modelled from the spec: `Bitmapinfoheader` — the fixed-size (40-byte)
device-independent-bitmap header with signed width/height. -/
structure Bitmapinfoheader where
  headerSize : ℕ
  width : ℤ
  height : ℤ
  colorPlanes : ℕ
  bitsPerPixel : ℕ
  compression : ℕ
  imageSize : ℕ
  xPixelsPerMeter : ℤ
  yPixelsPerMeter : ℤ
  colorsUsed : ℕ
  colorsImportant : ℕ
deriving DecidableEq

/-- Modelled from the spec: `BI_BITFIELDS` compression tag of `bitmap.h`. -/
def BI_BITFIELDS : ℕ := 3

/-- Modelled from the spec: byte sizes of the three header parts (§6):
fixed 14-byte generic raster header, fixed-size DIB header, and three
4-byte channel masks. This is `sizeof(BmpV1WithMasks)`. -/
def bmpV1WithMasksSize : ℕ := 14 + 40 + 12

/-- Struct `BmpV1WithMasks` (oaf_video.c lines 68-93): file header, DIB header
and the three A1BGR5 channel bit-masks. -/
structure BmpV1WithMasks where
  header : Bitmapfileheader
  dib : Bitmapinfoheader
  rMask : ℕ
  gMask : ℕ
  bMask : ℕ
deriving DecidableEq

/-- The externally visible actions `dumpFrameTex` performs, in program
order. -/
inductive DumpAction where
  | lgycapStop : DumpAction
  | displayTransfer : DumpAction
  | memcpyHeaders : DumpAction
  | waitForPPF : DumpAction
  | getRtcTimeDate : DumpAction
  | fsQuickWrite : DumpAction
  | lgycapStart : DumpAction
deriving DecidableEq

/-- What one invocation of `dumpFrameTex` produces: its ordered action
trace, the headers it serializes, the file size passed to `fsQuickWrite`,
the byte offset of the pixel payload inside the scratch buffer
(`tmpBuf + alignment/4` in 32-bit words), the transfer output dimensions,
and the returned `Result`. -/
structure DumpOut where
  actions : List DumpAction
  bmp : BmpV1WithMasks
  fileSize : ℕ
  payloadByteOffset : ℕ
  outDim : ℕ × ℕ
  ret : Result
deriving DecidableEq

/-- Model of `dumpFrameTex` (oaf_video.c lines 61-132), modelled as a pure function
of the configured scaler mode and the result of the `fsQuickWrite` call.
The capture unit is stopped first, the frame transferred out of the texture
into the scratch buffer at byte offset `alignment`, the headers copied to
offset 0, the file written, and the capture unit restarted; the write's
result is returned. -/
def dumpFrameTex (scaler : ℕ) (writeRes : Result) : DumpOut :=
  let alignment : ℕ := 0x80
  let bmpHeaders : BmpV1WithMasks :=
    { header :=
      { magic := 0x4D42
        fileSize := alignment + 240 * 160 * 2
        reserved := 0
        reserved2 := 0
        pixelOffset := alignment }
      dib :=
      { headerSize := 40
        width := 240
        height := -160
        colorPlanes := 1
        bitsPerPixel := 16
        compression := BI_BITFIELDS
        imageSize := 240 * 160 * 2
        xPixelsPerMeter := 0
        yPixelsPerMeter := 0
        colorsUsed := 0
        colorsImportant := 0 }
      rMask := 0xF800
      gMask := 0x07C0
      bMask := 0x003E }
  let scaled : Bool := scaler > 1
  let outDim : ℕ × ℕ := if scaled then (360, 240) else (240, 160)
  let fileSize : ℕ :=
    if scaled then alignment + 360 * 240 * 2 else alignment + 240 * 160 * 2
  let bmp : BmpV1WithMasks :=
    if scaled then
      { bmpHeaders with
        header := { bmpHeaders.header with fileSize := fileSize }
        dib := { bmpHeaders.dib with
          width := 360
          height := -240
          imageSize := 360 * 240 * 2 } }
    else bmpHeaders
  { actions := [DumpAction.lgycapStop, DumpAction.displayTransfer,
      DumpAction.memcpyHeaders, DumpAction.waitForPPF,
      DumpAction.getRtcTimeDate, DumpAction.fsQuickWrite,
      DumpAction.lgycapStart]
    bmp := bmp
    fileSize := fileSize
    payloadByteOffset := 4 * (alignment / 4)
    outDim := outDim
    ret := writeRes }

/-- The two GPU command lists the frame pipeline task can submit:
`gbaGpuInitList` (sequence A, one-time initialization) and `gbaGpuList2`
(sequence B, steady state). -/
inductive GpuCmdList where
  | initList : GpuCmdList
  | list2 : GpuCmdList
deriving DecidableEq

/-- The observable outcome of one iteration of the `gbaGfxHandler` loop
body: the `inited` flag after the iteration, the command list submitted,
whether `dumpFrameTex` was invoked, and — when it was — the result it
returned (which the handler discards). -/
structure StepOut where
  inited : Bool
  list : GpuCmdList
  dumped : Bool
  dumpRes : Option Result
deriving DecidableEq

/-- One iteration of the `gbaGfxHandler` loop body (oaf_video.c lines
154-178), given the `inited` flag at entry, the HID samples
`hidKeysHeld()` and `hidKeysDown()`, and the result the `fsQuickWrite`
inside `dumpFrameTex` would produce. The screenshot fires only if both Y
and SELECT are held exactly and at least one key was newly pressed. -/
def handlerStep (scaler : ℕ) (inited : Bool) (held down : ℕ)
    (writeRes : Result) : StepOut :=
  let list : GpuCmdList := if inited then GpuCmdList.list2 else GpuCmdList.initList
  let inited1 : Bool := if inited then inited else true
  let trigger : Bool := held == (KEY_Y ||| KEY_SELECT) && down != 0
  { inited := inited1
    list := list
    dumped := trigger
    dumpRes := if trigger then some (dumpFrameTex scaler writeRes).ret else none }

/-- The `gbaGfxHandler` task loop (oaf_video.c lines 134-182), modelled as
a fold of `handlerStep` over the sequence of processed frame-ready signals;
each list element carries that sample's `(hidKeysHeld, hidKeysDown)` pair
and the `Result` a triggered write would produce. The `static bool inited`
is threaded as explicit state; the task starts it at `false`. -/
def gbaGfxHandler (scaler : ℕ) : Bool → List (ℕ × ℕ × Result) → List StepOut
  | _, [] => []
  | inited, s :: rest =>
    let out := handlerStep scaler inited s.1 s.2.1 s.2.2
    out :: gbaGfxHandler scaler out.inited rest

/-- The border-related actions `OAF_videoInit` can perform. -/
inductive BorderAction where
  | displayTransferTiled : BorderAction
deriving DecidableEq

/-- The configuration-relevant outcome of `OAF_videoInit`: the capture
configuration, whether a matrix-load failure was logged, whether the
border file read was attempted, and the transfers performed for the
border. -/
structure VideoInitOut where
  cfg : LgyCapCfg
  cfgLogged : Bool
  borderAttempted : Bool
  borderTransfers : List BorderAction
deriving DecidableEq

/-- Model of `OAF_videoInit` (oaf_video.c lines 227-261) restricted to its
configuration and border effects: it calls `setupFrameCapture` with the
configured scaler, and only when `scaler == 0` ("No borders for scaled
modes.") attempts to read "border.bgr"; when that read succeeds the border
is transferred once, tiled (`PPF_OUT_TILED`), into the GPU render buffer.
The gamma-table installation is modelled by `adjustGammaTableForGba`. -/
def OAF_videoInit (scaler : ℕ) (matrixRead : FsRead) (borderRead : Result) :
    VideoInitOut :=
  let sfc := setupFrameCapture scaler matrixRead
  if scaler = 0 then
    { cfg := sfc.1
      cfgLogged := sfc.2
      borderAttempted := true
      borderTransfers :=
        if borderRead = Result.ok then [BorderAction.displayTransferTiled] else [] }
  else
    { cfg := sfc.1
      cfgLogged := sfc.2
      borderAttempted := false
      borderTransfers := [] }

theorem clamp_s32_mono {v w lo hi : ℤ} (hlohi : lo ≤ hi) (h : v ≤ w) :
    clamp_s32 v lo hi ≤ clamp_s32 w lo hi := by
  unfold clamp_s32
  split_ifs <;> omega

theorem clamp_s32_bounds (v : ℤ) : 0 ≤ clamp_s32 v 0 255 ∧ clamp_s32 v 0 255 ≤ 255 := by
  unfold clamp_s32
  split_ifs <;> omega

theorem round_mono_of_le {x y : ℝ} (h : x ≤ y) : round x ≤ round y := by
  rw [round_eq, round_eq]
  exact Int.floor_mono (by linarith)

theorem round_nonneg_of_nonneg {x : ℝ} (h : 0 ≤ x) : 0 ≤ round x := by
  rw [round_eq]
  exact Int.floor_nonneg.mpr (by linarith)

theorem lroundf_mono {x y : ℝ} (h : x ≤ y) : lroundf x ≤ lroundf y := by
  unfold lroundf
  split_ifs with hx hy hy
  · have hr : round (-y) ≤ round (-x) := round_mono_of_le (by linarith)
    omega
  · have h1 : (0 : ℤ) ≤ round y := round_nonneg_of_nonneg (by linarith)
    have h2 : (0 : ℤ) ≤ round (-x) := round_nonneg_of_nonneg (by linarith)
    omega
  · exact absurd h (by push_neg; linarith)
  · exact round_mono_of_le h

/-- C1: for every index i in [0,255], `adjustGammaTableForGba` writes, at
sequence position i and in strictly increasing index order, the packed word
whose red, green and blue bytes all equal
`clamp(round(pow(pow(contrast, targetGamma) * pow(i/255 +
brightness/contrast, targetGamma), 1/lcdGamma) * 255), 0, 255)`, for all
four input parameters. -/
theorem adjustGammaTableForGba_writes_spec
    (targetGamma lcdGamma contrast brightness : ℝ) (i : Fin 256) :
    (adjustGammaTableForGba targetGamma lcdGamma contrast brightness).length = 256 ∧
    (adjustGammaTableForGba targetGamma lcdGamma contrast brightness)[i.val]? =
      some (packRGB (specGammaValue targetGamma lcdGamma contrast brightness i.val)) := by
  constructor
  · rw [adjustGammaTableForGba]
    exact List.length_ofFn _
  · rw [adjustGammaTableForGba, List.getElem?_ofFn]
    simp only [List.ofFnNthVal, i.isLt, dif_pos]
    rfl

/-- C9: with brightness = 0 and contrast = 1 and any positive gamma
parameters, the 256 gamma-table entries are monotone non-decreasing in the
index, and for all inputs every entry lies in [0, 255]. -/
theorem gbaGammaEntry_monotone_and_bounded (targetGamma lcdGamma : ℝ)
    (htg : 0 < targetGamma) (hlg : 0 < lcdGamma) :
    (∀ i j : Fin 256, i ≤ j →
      gbaGammaEntry targetGamma lcdGamma 1 0 i.val ≤
        gbaGammaEntry targetGamma lcdGamma 1 0 j.val) ∧
    (∀ tg2 lg2 c b : ℝ, ∀ i : Fin 256,
      0 ≤ gbaGammaEntry tg2 lg2 c b i.val ∧ gbaGammaEntry tg2 lg2 c b i.val ≤ 255) := by
  constructor
  · intro i j hij
    simp only [gbaGammaEntry]
    apply clamp_s32_mono (by norm_num)
    apply lroundf_mono
    have hvij : ((i.val : ℝ)) ≤ ((j.val : ℝ)) := by
      exact_mod_cast Fin.le_def.mp hij
    have hij2 : ((i.val : ℝ) / 255 + 0 / (1:ℝ)) ≤ ((j.val : ℝ) / 255 + 0 / 1) := by
      gcongr
    have h0 : (0:ℝ) ≤ (i.val : ℝ) / 255 + 0 / 1 := by positivity
    have h1 : ((i.val : ℝ) / 255 + 0 / 1) ^ targetGamma ≤
        ((j.val : ℝ) / 255 + 0 / 1) ^ targetGamma :=
      Real.rpow_le_rpow h0 hij2 htg.le
    have h2 : ((1:ℝ) ^ targetGamma * (((i.val : ℝ) / 255 + 0 / 1) ^ targetGamma)) ≤
        ((1:ℝ) ^ targetGamma * (((j.val : ℝ) / 255 + 0 / 1) ^ targetGamma)) := by
      rw [Real.one_rpow, one_mul, one_mul]
      exact h1
    have hbase : (0:ℝ) ≤
        (1:ℝ) ^ targetGamma * (((i.val : ℝ) / 255 + 0 / 1) ^ targetGamma) :=
      mul_nonneg (Real.rpow_nonneg zero_le_one targetGamma) (Real.rpow_nonneg h0 targetGamma)
    have h3 := Real.rpow_le_rpow hbase h2 (one_div_nonneg.mpr hlg.le)
    exact mul_le_mul_of_nonneg_right h3 (by norm_num)
  · intro tg2 lg2 c b i
    simp only [gbaGammaEntry]
    exact clamp_s32_bounds _

/-- Witness for the monotonicity claim at targetGamma = 1, lcdGamma = 1. -/
theorem gbaGammaEntry_monotone_and_bounded_witness :
    (0:ℝ) < 1 ∧
    ((∀ i j : Fin 256, i ≤ j →
      gbaGammaEntry 1 1 1 0 i.val ≤ gbaGammaEntry 1 1 1 0 j.val) ∧
    (∀ tg2 lg2 c b : ℝ, ∀ i : Fin 256,
      0 ≤ gbaGammaEntry tg2 lg2 c b i.val ∧ gbaGammaEntry tg2 lg2 c b i.val ≤ 255)) :=
  ⟨by norm_num, gbaGammaEntry_monotone_and_bounded 1 1 (by norm_num) (by norm_num)⟩

/-- C2: for every scaler mode value (a u8), modes 0 and 1 produce geometry
240x160 with the horizontal and the vertical scaling-enable bit each
individually clear, and every mode at least 2 produces geometry 360x240
with both scaling-enable bits individually set, whatever the outcome of
the coefficient-file read. -/
theorem setupFrameCapture_geometry (scaler : Fin 256) (matrixRead : FsRead) :
    (setupFrameCapture scaler.val matrixRead).1.w =
      (if scaler.val < 2 then 240 else 360) ∧
    (setupFrameCapture scaler.val matrixRead).1.h =
      (if scaler.val < 2 then 160 else 240) ∧
    Nat.testBit (setupFrameCapture scaler.val matrixRead).1.cnt 14 =
      decide (2 ≤ scaler.val) ∧
    Nat.testBit (setupFrameCapture scaler.val matrixRead).1.cnt 15 =
      decide (2 ≤ scaler.val) := by
  by_cases h : scaler.val < 2
  · have h2 : ¬ 2 ≤ scaler.val := by omega
    simp only [setupFrameCapture, h, if_true, if_pos, decide_eq_false h2]
    refine ⟨rfl, rfl, ?_, ?_⟩ <;> decide
  · have h2 : 2 ≤ scaler.val := by omega
    simp only [setupFrameCapture, h, if_false, if_neg, decide_eq_true h2]
    refine ⟨rfl, rfl, ?_, ?_⟩ <;> decide

/-- C3: the screenshot dump is invoked in an iteration exactly when the
held-button bitmask equals the set containing Y and SELECT alone and the
newly-pressed bitmask is nonzero in the same sample — never for any other
held mask (superset or subset) and never when nothing was newly pressed. -/
theorem handlerStep_trigger_iff (scaler : ℕ) (inited : Bool) (held down : ℕ)
    (writeRes : Result) :
    (handlerStep scaler inited held down writeRes).dumped = true ↔
      (held = (KEY_Y ||| KEY_SELECT) ∧ down ≠ 0) := by
  simp [handlerStep]

theorem gbaGfxHandler_from_true (scaler : ℕ) (samples : List (ℕ × ℕ × Result))
    (k : ℕ) :
    ((gbaGfxHandler scaler true samples)[k]?).map StepOut.list =
      (samples[k]?).map (fun _ => GpuCmdList.list2) ∧
    ((gbaGfxHandler scaler true samples)[k]?).map StepOut.inited =
      (samples[k]?).map (fun _ => true) := by
  induction samples generalizing k with
  | nil => simp [gbaGfxHandler]
  | cons s rest ih =>
    cases k with
    | zero => simp [gbaGfxHandler, handlerStep]
    | succ k =>
      have h := ih k
      simpa [gbaGfxHandler, handlerStep] using h

/-- C4: with the task-local `inited` flag starting at false, the first
processed frame-ready signal selects the one-time init command list and
every subsequent processed signal selects the steady-state list, across
arbitrarily many iterations; after every iteration the flag reads true
(set once after the first iteration, never reset). -/
theorem gbaGfxHandler_first_init_then_steady (scaler : ℕ)
    (samples : List (ℕ × ℕ × Result)) (k : ℕ) :
    ((gbaGfxHandler scaler false samples)[k]?).map StepOut.list =
      (samples[k]?).map
        (fun _ => if k = 0 then GpuCmdList.initList else GpuCmdList.list2) ∧
    ((gbaGfxHandler scaler false samples)[k]?).map StepOut.inited =
      (samples[k]?).map (fun _ => true) := by
  cases samples with
  | nil => simp [gbaGfxHandler]
  | cons s rest =>
    cases k with
    | zero => simp [gbaGfxHandler, handlerStep]
    | succ k =>
      have h := gbaGfxHandler_from_true scaler rest k
      simpa [gbaGfxHandler, handlerStep] using h

/-- C5: a triggered screenshot with a successful storage write produces,
under scaler mode 0, a file of 128 + 240*160*2 bytes with embedded width
240 and height -160, and under scaler mode 2 a file of 128 + 360*240*2
bytes with embedded width 360 and height -240; in both cases the pixel
payload begins at byte offset 128. -/
theorem dumpFrameTex_file_shape :
    (dumpFrameTex 0 Result.ok).fileSize = 128 + 240 * 160 * 2 ∧
    (dumpFrameTex 0 Result.ok).bmp.header.fileSize = 128 + 240 * 160 * 2 ∧
    (dumpFrameTex 0 Result.ok).bmp.dib.width = 240 ∧
    (dumpFrameTex 0 Result.ok).bmp.dib.height = -160 ∧
    (dumpFrameTex 0 Result.ok).bmp.header.pixelOffset = 128 ∧
    (dumpFrameTex 0 Result.ok).payloadByteOffset = 128 ∧
    (dumpFrameTex 2 Result.ok).fileSize = 128 + 360 * 240 * 2 ∧
    (dumpFrameTex 2 Result.ok).bmp.header.fileSize = 128 + 360 * 240 * 2 ∧
    (dumpFrameTex 2 Result.ok).bmp.dib.width = 360 ∧
    (dumpFrameTex 2 Result.ok).bmp.dib.height = -240 ∧
    (dumpFrameTex 2 Result.ok).bmp.header.pixelOffset = 128 ∧
    (dumpFrameTex 2 Result.ok).payloadByteOffset = 128 := by
  decide

/-- C6: every invocation of `dumpFrameTex` stops the capture unit first and
restarts it last — unconditionally, for every write result including
failures — and returns the write's result; the calling iteration's next
state, command-list selection and trigger decision do not depend on that
result. -/
theorem dumpFrameTex_stop_dump_restart (scaler : ℕ) (writeRes : Result)
    (inited : Bool) (held down : ℕ) (writeRes2 : Result) :
    (dumpFrameTex scaler writeRes).actions =
      [DumpAction.lgycapStop, DumpAction.displayTransfer,
       DumpAction.memcpyHeaders, DumpAction.waitForPPF,
       DumpAction.getRtcTimeDate, DumpAction.fsQuickWrite,
       DumpAction.lgycapStart] ∧
    (dumpFrameTex scaler writeRes).ret = writeRes ∧
    (handlerStep scaler inited held down writeRes).inited =
      (handlerStep scaler inited held down writeRes2).inited ∧
    (handlerStep scaler inited held down writeRes).list =
      (handlerStep scaler inited held down writeRes2).list ∧
    (handlerStep scaler inited held down writeRes).dumped =
      (handlerStep scaler inited held down writeRes2).dumped :=
  ⟨rfl, rfl, rfl, rfl, rfl⟩

/-- C7: with the override file absent the configuration handed to the
capture unit holds the built-in default matrices byte-for-byte and no
failure is logged; with any read error other than "not found" the failure
is logged, the configurator still completes, and the built-in coefficients
remain in effect. -/
theorem setupFrameCapture_default_matrices (scaler : ℕ) (code : ℕ) :
    (setupFrameCapture scaler FsRead.noFile).1.vMatrix =
      defaultScalerMatrix.take 48 ∧
    (setupFrameCapture scaler FsRead.noFile).1.hMatrix =
      (defaultScalerMatrix.drop 48).take 48 ∧
    (setupFrameCapture scaler FsRead.noFile).2 = false ∧
    (setupFrameCapture scaler (FsRead.err code)).1.vMatrix =
      defaultScalerMatrix.take 48 ∧
    (setupFrameCapture scaler (FsRead.err code)).1.hMatrix =
      (defaultScalerMatrix.drop 48).take 48 ∧
    (setupFrameCapture scaler (FsRead.err code)).2 = true :=
  ⟨rfl, rfl, rfl, rfl, rfl, rfl⟩

/-- C8 counterexample: in scaler mode 1 the capture geometry is the native
240x160, yet the border load is not attempted (the code tests
`scaler == 0`, not "native geometry"), even with the border file present. -/
theorem OAF_videoInit_border_mode1_counterexample :
    (setupFrameCapture 1 FsRead.noFile).1.w = 240 ∧
    (setupFrameCapture 1 FsRead.noFile).1.h = 160 ∧
    (OAF_videoInit 1 FsRead.noFile Result.ok).borderAttempted = false := by
  decide

/-- C8 amended: at pipeline startup the optional border image is attempted
to be loaded exactly when the scaler mode is 0 (not in mode 1, although its
capture geometry is also 240x160); when attempted and present it is
transferred once, tiled, into the render source region, and in every other
mode no border transfer happens. -/
theorem OAF_videoInit_border_amended (scaler : ℕ) (matrixRead : FsRead)
    (borderRead : Result) :
    ((OAF_videoInit scaler matrixRead borderRead).borderAttempted =
      decide (scaler = 0)) ∧
    ((OAF_videoInit scaler matrixRead borderRead).borderTransfers =
      if scaler = 0 ∧ borderRead = Result.ok then
        [BorderAction.displayTransferTiled] else []) := by
  by_cases h : scaler = 0
  · by_cases hb : borderRead = Result.ok <;> simp [OAF_videoInit, h, hb]
  · simp [OAF_videoInit, h]

/-- C10: the raster header block copied to the start of the scratch buffer
is smaller than the 128-byte payload offset, and the header byte range is
disjoint from the pixel payload byte range for both output geometries. -/
theorem dumpFrameTex_header_payload_disjoint :
    bmpV1WithMasksSize < (dumpFrameTex 0 Result.ok).payloadByteOffset ∧
    Disjoint (Finset.range bmpV1WithMasksSize)
      (Finset.Ico (dumpFrameTex 0 Result.ok).payloadByteOffset
        ((dumpFrameTex 0 Result.ok).payloadByteOffset + 240 * 160 * 2)) ∧
    Disjoint (Finset.range bmpV1WithMasksSize)
      (Finset.Ico (dumpFrameTex 2 Result.ok).payloadByteOffset
        ((dumpFrameTex 2 Result.ok).payloadByteOffset + 360 * 240 * 2)) := by
  have hoff0 : (dumpFrameTex 0 Result.ok).payloadByteOffset = 128 := rfl
  have hoff2 : (dumpFrameTex 2 Result.ok).payloadByteOffset = 128 := rfl
  rw [hoff0, hoff2]
  refine ⟨by norm_num [bmpV1WithMasksSize], ?_, ?_⟩ <;>
  · rw [Finset.disjoint_left]
    intro a ha hb
    rw [Finset.mem_range, bmpV1WithMasksSize] at ha
    rw [Finset.mem_Ico] at hb
    omega
